import Mathlib

/-!
Verification of the productivity toolkit app (src/app.py).

The file embeds the session-state logic of the app — the per-session rate
limiter `can_use_ai`, the history append `save_history` with its
default-filling of missing fields, the dashboard aggregation, and the ROI
arithmetic of the automation-finder tab — as pure Lean functions, and the
three feature handlers as a step relation on an explicit session state.
Numbers that Python holds as ints/floats are modelled as `Nat` (counters)
and `ℚ` (hours, money); all operations involved are exact on the values
the claims mention.
-/

namespace ProductivityToolkit

/-- Source line 34: `MAX_CALLS = 8`. -/
def MAX_CALLS : Nat := 8

/-- Source lines 36-41, `can_use_ai()`: reads `st.session_state.ai_calls`;
if it is `≥ MAX_CALLS` returns `False` leaving the counter unchanged
(the `st.warning` is UI-only), otherwise increments the counter and
returns `True`.  Modelled as a function from the counter to
(returned boolean, new counter). -/
def can_use_ai (ai_calls : Nat) : Bool × Nat :=
  if ai_calls ≥ MAX_CALLS then (false, ai_calls)
  else (true, ai_calls + 1)

/-- Counter value after `n` successive calls of `can_use_ai`, starting
from the initial `st.session_state.ai_calls = 0` (source line 29). -/
def attempts : Nat → Nat
  | 0 => 0
  | n + 1 => (can_use_ai (attempts n)).2

/-- A partial interaction record as the handlers pass it to
`save_history` (a Python dict with a subset of the six known keys);
`none` means the key is absent.  The `time` field (a `datetime` in the
source) is modelled as an abstract `Nat` timestamp. -/
structure Entry where
  type : Option String := none
  name : Option String := none
  result : Option String := none
  time : Option Nat := none
  hours : Option ℚ := none
  savings : Option ℚ := none
deriving DecidableEq

/-- A fully populated history record: after `save_history` every record
has all six keys (source lines 59-67). -/
structure Interaction where
  type : String
  name : String
  result : String
  time : Nat
  hours : ℚ
  savings : ℚ
deriving DecidableEq

/-- Source lines 59-67 of `save_history`: the `default_entry` dict
updated with the caller's entry — each present key of the entry
overrides the default, each absent key keeps the default (`""`,
`datetime.now()` for `time`, `0` for `hours` and `savings`). -/
def fill_entry (now : Nat) (e : Entry) : Interaction :=
  { type := e.type.getD ""
    name := e.name.getD ""
    result := e.result.getD ""
    time := e.time.getD now
    hours := e.hours.getD 0
    savings := e.savings.getD 0 }

/-- Source lines 57-68, `save_history(entry)`: append the default-filled
record to `st.session_state.history`. -/
def save_history (now : Nat) (history : List Interaction) (e : Entry) :
    List Interaction :=
  history ++ [fill_entry now e]

/-- Number of history records whose `type` equals `t`: the dashboard's
`len(hist_df[hist_df["type"] == t])` (source lines 217-218) and the
per-type bars of `value_counts()` (source lines 227-228). -/
def countType (h : List Interaction) (t : String) : Nat :=
  (h.filter (fun r => r.type == t)).length

/-- Result record of the dashboard aggregation (source lines 214-228). -/
structure Aggregate where
  total : Nat
  ideas : Nat
  meetings : Nat
  autoHours : ℚ
  autoSavings : ℚ
deriving DecidableEq

/-- Source lines 214-228, the dashboard metrics of tab 3:
`len(hist_df)`, the `Idea` and `Meeting` counts, and the sums of the
`hours` and `savings` columns restricted to rows with
`type == "Automation"`. -/
def aggregate (h : List Interaction) : Aggregate :=
  { total := h.length
    ideas := countType h "Idea"
    meetings := countType h "Meeting"
    autoHours := ((h.filter (fun r => r.type == "Automation")).map
      (fun r => r.hours)).sum
    autoSavings := ((h.filter (fun r => r.type == "Automation")).map
      (fun r => r.savings)).sum }

/-- A task row of the automation-finder data editor (source lines 84-88):
task name, hours per week, tool used. -/
structure TaskRow where
  task : String
  hoursPerWeek : ℚ
  tool : String
deriving DecidableEq

/-- Source line 97: the derived `Monthly Hours` column,
`Hours per Week * 4`. -/
def monthlyHoursRow (r : TaskRow) : ℚ := r.hoursPerWeek * 4

/-- Source line 98: `total_hours = df["Monthly Hours"].sum()`. -/
def total_hours (rows : List TaskRow) : ℚ :=
  (rows.map monthlyHoursRow).sum

/-- Source line 99: `annual_hours = total_hours * 12`. -/
def annual_hours (rows : List TaskRow) : ℚ := total_hours rows * 12

/-- Source line 101: `annual_savings = annual_hours * hourly_rate`. -/
def annual_savings (rows : List TaskRow) (hourly_rate : ℚ) : ℚ :=
  annual_hours rows * hourly_rate

/-- Source line 102:
`roi = ((annual_savings - automation_cost) / automation_cost) * 100 if automation_cost else 0`.
Python truthiness of a number is `≠ 0`. -/
def roi (annual_savings automation_cost : ℚ) : ℚ :=
  if automation_cost ≠ 0 then
    ((annual_savings - automation_cost) / automation_cost) * 100
  else 0

/-- The concrete scenario rows: the data editor's default rows shortened
to (task, hours per week, tool) triples. -/
def demoRows : List TaskRow :=
  [⟨"Report", 4, "Excel"⟩, ⟨"Email copy", 3, "Outlook"⟩]

/-- Per-session state: `st.session_state.ai_calls` and
`st.session_state.history` (source lines 28-32). -/
structure Session where
  ai_calls : Nat
  history : List Interaction
deriving DecidableEq

/-- Initial session state (source lines 28-32): counter `0`, empty
history. -/
def initSession : Session := { ai_calls := 0, history := [] }

/-- One press of any of the three feature-handler buttons
(source lines 96-136, 153-173, 187-205).  Each handler runs
`if can_use_ai(): result = ask_ai(...); ...; save_history(entry)`.
The outbound model call is modelled by its outcome `askResult`:
`some r` is a reply `r`, `none` is a raised `ServiceError`, in which
case the exception propagates and `save_history` is never reached.
`mkEntry` builds the handler's partial record from the reply. -/
def runHandler (now : Nat) (askResult : Option String)
    (mkEntry : String → Entry) (s : Session) : Session :=
  match can_use_ai s.ai_calls with
  | (false, n) => { ai_calls := n, history := s.history }
  | (true, n) =>
    match askResult with
    | none => { ai_calls := n, history := s.history }
    | some r =>
      { ai_calls := n, history := save_history now s.history (mkEntry r) }

/-- Whether a press of a handler button in state `s` issues a model
call: the handlers call `ask_ai` exactly when `can_use_ai()` returned
`True`. -/
def handlerCallsModel (s : Session) : Bool := (can_use_ai s.ai_calls).1

/-- Session states reachable from the initial state by handler
presses. -/
inductive Reachable : Session → Prop
  | init : Reachable initSession
  | step (now : Nat) (ask : Option String) (mk : String → Entry)
      {s : Session} : Reachable s → Reachable (runHandler now ask mk s)

/-- History built by a sequence of `save_history` calls, one per
(timestamp, entry) pair, starting from the empty history. -/
def buildHistory (es : List (Nat × Entry)) : List Interaction :=
  es.foldl (fun h p => save_history p.1 h p.2) []

/-- Helper: `n` handler presses whose model call always fails
(`ask = none`), from a given state. -/
def stepsNone : Nat → Session → Session
  | 0, s => s
  | n + 1, s => stepsNone n (runHandler 0 none (fun _ => {}) s)

lemma attempts_eq_min (n : Nat) : attempts n = min n MAX_CALLS := by
  induction n with
  | zero => simp [attempts]
  | succ n ih =>
    simp only [attempts, ih, can_use_ai, MAX_CALLS]
    split <;> omega

lemma reachable_stepsNone (n : Nat) :
    Reachable (stepsNone n initSession) := by
  have key : ∀ m s, Reachable s → Reachable (stepsNone m s) := by
    intro m
    induction m with
    | zero => intro s hs; exact hs
    | succ m ih =>
      intro s hs
      exact ih _ (Reachable.step 0 none (fun _ => {}) hs)
  exact key n initSession Reachable.init

lemma runHandler_denied {s : Session} (now : Nat) (ask : Option String)
    (mk : String → Entry) (h : s.ai_calls ≥ MAX_CALLS) :
    runHandler now ask mk s = s := by
  simp [runHandler, can_use_ai, h]

lemma runHandler_err {s : Session} (now : Nat) (mk : String → Entry)
    (h : s.ai_calls < MAX_CALLS) :
    runHandler now none mk s =
      { ai_calls := s.ai_calls + 1, history := s.history } := by
  simp [runHandler, can_use_ai, Nat.not_le.mpr h]

lemma runHandler_ok {s : Session} (now : Nat) (r : String)
    (mk : String → Entry) (h : s.ai_calls < MAX_CALLS) :
    runHandler now (some r) mk s =
      { ai_calls := s.ai_calls + 1,
        history := save_history now s.history (mk r) } := by
  simp [runHandler, can_use_ai, Nat.not_le.mpr h]

lemma reachable_ai_calls_le {s : Session} (h : Reachable s) :
    s.ai_calls ≤ MAX_CALLS := by
  induction h with
  | init => simp [initSession]
  | step now ask mk hs ih =>
    rename_i s
    rcases Nat.lt_or_ge s.ai_calls MAX_CALLS with hlt | hge
    · cases ask with
      | none => rw [runHandler_err now _ hlt]; exact hlt
      | some r => rw [runHandler_ok now r _ hlt]; exact hlt
    · rw [runHandler_denied now ask _ hge]; exact ih

lemma reachable_history_le_calls {s : Session} (h : Reachable s) :
    s.history.length ≤ s.ai_calls := by
  induction h with
  | init => simp [initSession]
  | step now ask mk hs ih =>
    rename_i s
    rcases Nat.lt_or_ge s.ai_calls MAX_CALLS with hlt | hge
    · cases ask with
      | none => rw [runHandler_err now _ hlt]; simp; omega
      | some r =>
        rw [runHandler_ok now r _ hlt]
        simp [save_history]
        omega
    · rw [runHandler_denied now ask _ hge]; exact ih

/-- C1: `can_use_ai` returns `true` and increments the counter by
exactly one when it is below `MAX_CALLS`, and returns `false` with the
counter unchanged when it is at or above `MAX_CALLS`; consequently
after `N` attempted calls the counter equals `min N MAX_CALLS`, and
the next call when `N ≥ MAX_CALLS` is denied. -/
theorem claim_C1_rate_limiter (c N : Nat) :
    (c < MAX_CALLS → can_use_ai c = (true, c + 1)) ∧
    (c ≥ MAX_CALLS → can_use_ai c = (false, c)) ∧
    attempts N = min N MAX_CALLS ∧
    (N ≥ MAX_CALLS → (can_use_ai (attempts N)).1 = false) := by
  refine ⟨fun h => ?_, fun h => ?_, attempts_eq_min N, fun h => ?_⟩
  · simp [can_use_ai, Nat.not_le.mpr h]
  · simp [can_use_ai, h]
  · rw [attempts_eq_min, Nat.min_eq_right h]
    simp [can_use_ai]

/-- Witness for C1 at concrete inputs: a call at count 3 is granted and
increments to 4, a call at count 8 is denied and leaves 8, ten
attempts stop at `min 10 MAX_CALLS`, and the next call is denied. -/
theorem claim_C1_rate_limiter_witness :
    can_use_ai 3 = (true, 4) ∧ can_use_ai 8 = (false, 8) ∧
    attempts 10 = min 10 MAX_CALLS ∧
    (can_use_ai (attempts 10)).1 = false :=
  ⟨(claim_C1_rate_limiter 3 10).1 (by decide),
   (claim_C1_rate_limiter 8 10).2.1 (by decide),
   (claim_C1_rate_limiter 0 10).2.2.1,
   (claim_C1_rate_limiter 0 10).2.2.2 (by decide)⟩

/-- C8 counterexample: the claim assumes `MAX_CALLS = 5`, but in the
code `MAX_CALLS = 8`: after five successful calls the quota is not
exhausted, and the sixth call is granted and increments the counter to
6 rather than being denied. -/
theorem claim_C8_counterexample :
    MAX_CALLS ≠ 5 ∧ attempts 5 = 5 ∧
    can_use_ai (attempts 5) = (true, 6) := by
  decide

/-- C8 amended: with `MAX_CALLS = 8`, eight consecutive calls all
succeed and consume the session's full quota, and a ninth call is
denied without incrementing the counter further. -/
theorem claim_C8_full_quota :
    MAX_CALLS = 8 ∧
    ((List.range 8).all fun k => (can_use_ai (attempts k)).1) = true ∧
    attempts 8 = MAX_CALLS ∧
    can_use_ai (attempts 8) = (false, MAX_CALLS) := by
  decide

/-- C7: with `automation_cost = 0` the ROI computation takes the
guarded branch and returns `0` for every savings value; the dividing
branch is not taken. -/
theorem claim_C7_zero_cost (s : ℚ) : roi s 0 = 0 := by
  simp [roi]

/-- C5: aggregation of the empty history yields zero for the total,
zero for the count of every interaction type, and zero for both
sums. -/
theorem claim_C5_empty_aggregate :
    aggregate [] = ⟨0, 0, 0, 0, 0⟩ ∧ ∀ t : String, countType [] t = 0 :=
  ⟨rfl, fun _ => rfl⟩

/-- C3: the ROI calculator computes monthly hours as the sum of
`hoursPerWeek * 4` over the rows, annual hours as monthly hours × 12,
annual savings as annual hours × rate, and ROI as
`(savings - cost) / cost * 100` when the cost is positive; the
scenario rows with rate 25 and cost 2000 yield 28, 336, 8400 and
320. -/
theorem claim_C3_roi_formulas :
    (∀ rows : List TaskRow,
      total_hours rows = (rows.map fun r => r.hoursPerWeek * 4).sum) ∧
    (∀ rows : List TaskRow, annual_hours rows = total_hours rows * 12) ∧
    (∀ (rows : List TaskRow) (rate : ℚ),
      annual_savings rows rate = annual_hours rows * rate) ∧
    (∀ s c : ℚ, 0 < c → roi s c = (s - c) / c * 100) ∧
    total_hours demoRows = 28 ∧
    annual_hours demoRows = 336 ∧
    annual_savings demoRows 25 = 8400 ∧
    roi (annual_savings demoRows 25) 2000 = 320 := by
  refine ⟨fun rows => rfl, fun rows => rfl, fun rows rate => rfl,
    fun s c hc => ?_, ?_, ?_, ?_, ?_⟩
  · simp [roi, ne_of_gt hc]
  all_goals
    norm_num [total_hours, annual_hours, annual_savings, roi, demoRows,
      monthlyHoursRow]

/-- Witness for C3 at the scenario's cost: `2000 > 0` and the dividing
branch is taken there. -/
theorem claim_C3_roi_formulas_witness :
    (0 : ℚ) < 2000 ∧
    roi 8400 2000 = ((8400 : ℚ) - 2000) / 2000 * 100 :=
  ⟨by norm_num, claim_C3_roi_formulas.2.2.2.1 8400 2000 (by norm_num)⟩

/-- C2: in every reachable session state the counter never exceeds
`MAX_CALLS`; once the counter has reached `MAX_CALLS`, a press of any
handler button issues no model call and leaves the session state
unchanged. -/
theorem claim_C2_quota_ceiling {s : Session} (h : Reachable s) :
    s.ai_calls ≤ MAX_CALLS ∧
    (s.ai_calls = MAX_CALLS →
      handlerCallsModel s = false ∧
      ∀ (now : Nat) (ask : Option String) (mk : String → Entry),
        runHandler now ask mk s = s) := by
  refine ⟨reachable_ai_calls_le h, fun he => ⟨?_, fun now ask mk => ?_⟩⟩
  · simp [handlerCallsModel, can_use_ai, he]
  · exact runHandler_denied now ask mk he.ge

/-- Witness for C2 at the state reached by eight handler presses: the
counter is at the ceiling and no further model call is issued. -/
theorem claim_C2_quota_ceiling_witness :
    (stepsNone 8 initSession).ai_calls ≤ MAX_CALLS ∧
    handlerCallsModel (stepsNone 8 initSession) = false := by
  have h := claim_C2_quota_ceiling (reachable_stepsNone 8)
  exact ⟨h.1, (h.2 (by decide)).1⟩

/-- C9: in every reachable session state the history length is bounded
by the call counter — each append happens only after a successful
quota consumption — and hence never exceeds `MAX_CALLS`. -/
theorem claim_C9_history_bounded {s : Session} (h : Reachable s) :
    s.history.length ≤ s.ai_calls ∧ s.history.length ≤ MAX_CALLS :=
  ⟨reachable_history_le_calls h,
   le_trans (reachable_history_le_calls h) (reachable_ai_calls_le h)⟩

/-- Witness for C9 at the initial session state. -/
theorem claim_C9_history_bounded_witness :
    initSession.history.length ≤ initSession.ai_calls ∧
    initSession.history.length ≤ MAX_CALLS :=
  claim_C9_history_bounded Reachable.init

/-- C10: if the model call raises after a successful quota consumption,
the counter stays incremented by one and the history is unchanged;
consequently a reachable state can have more consumed calls than
history records. -/
theorem claim_C10_failed_call (s : Session) (now : Nat)
    (mk : String → Entry) (h : s.ai_calls < MAX_CALLS) :
    (runHandler now none mk s).ai_calls = s.ai_calls + 1 ∧
    (runHandler now none mk s).history = s.history ∧
    ∃ t : Session, Reachable t ∧ t.history.length < t.ai_calls := by
  rw [runHandler_err now mk h]
  exact ⟨rfl, rfl,
    ⟨runHandler 0 none (fun _ => {}) initSession,
     Reachable.step 0 none _ Reachable.init, by decide⟩⟩

/-- Witness for C10 at the initial state: the quota is below the
ceiling, and one failed call increments the counter while leaving the
history empty. -/
theorem claim_C10_failed_call_witness :
    initSession.ai_calls < MAX_CALLS ∧
    (runHandler 0 none (fun _ => {}) initSession).ai_calls
      = initSession.ai_calls + 1 ∧
    (runHandler 0 none (fun _ => {}) initSession).history
      = initSession.history := by
  have h := claim_C10_failed_call initSession 0 (fun _ => {}) (by decide)
  exact ⟨by decide, h.1, h.2.1⟩

lemma filter_of_map {α β : Type} (f : α → β) (p : β → Bool)
    (l : List α) :
    (l.map f).filter p = (l.filter fun a => p (f a)).map f := by
  induction l with
  | nil => rfl
  | cons a l ih => by_cases h : p (f a) <;> simp [h, ih]

lemma buildHistory_eq (es : List (Nat × Entry)) :
    buildHistory es = es.map fun p => fill_entry p.1 p.2 := by
  have key : ∀ (l : List (Nat × Entry)) (acc : List Interaction),
      l.foldl (fun h p => save_history p.1 h p.2) acc
        = acc ++ l.map fun p => fill_entry p.1 p.2 := by
    intro l
    induction l with
    | nil => intro acc; simp
    | cons e l ih =>
      intro acc
      rw [List.foldl_cons, ih]
      simp [save_history]
  simpa [buildHistory] using key es []

/-- C4: for every sequence of `save_history` appends, in any
interleaving of entry types, aggregation yields for each type a count
equal to the number of appended entries of that type, and hours and
savings sums taken over exactly the entries whose type is
`Automation`. -/
theorem claim_C4_aggregate_counts (es : List (Nat × Entry)) :
    (∀ t : String, countType (buildHistory es) t
        = (es.filter fun p => p.2.type.getD "" == t).length) ∧
    (aggregate (buildHistory es)).total = es.length ∧
    (aggregate (buildHistory es)).ideas
        = (es.filter fun p => p.2.type.getD "" == "Idea").length ∧
    (aggregate (buildHistory es)).meetings
        = (es.filter fun p => p.2.type.getD "" == "Meeting").length ∧
    (aggregate (buildHistory es)).autoHours
        = ((es.filter fun p => p.2.type.getD "" == "Automation").map
            fun p => p.2.hours.getD 0).sum ∧
    (aggregate (buildHistory es)).autoSavings
        = ((es.filter fun p => p.2.type.getD "" == "Automation").map
            fun p => p.2.savings.getD 0).sum := by
  refine ⟨fun t => ?_, ?_, ?_, ?_, ?_, ?_⟩ <;>
    simp [aggregate, countType, buildHistory_eq, filter_of_map,
      fill_entry, List.map_map, Function.comp_def]

/-- C6: every record appended by `save_history` has all six fields
populated: present entry fields are kept and absent ones take the
defaults, with `hours` and `savings` defaulting to `0`; aggregating a
history extended with such a default-filled record reads the always
present `hours`/`savings` fields, a missing one contributing `0` to the
corresponding sum. -/
theorem claim_C6_defaults (e : Entry) (now : Nat)
    (h : List Interaction) :
    (fill_entry now e).type = e.type.getD "" ∧
    (fill_entry now e).name = e.name.getD "" ∧
    (fill_entry now e).result = e.result.getD "" ∧
    (fill_entry now e).time = e.time.getD now ∧
    (fill_entry now e).hours = e.hours.getD 0 ∧
    (fill_entry now e).savings = e.savings.getD 0 ∧
    (e.hours = none → (fill_entry now e).hours = 0) ∧
    (e.savings = none → (fill_entry now e).savings = 0) ∧
    (aggregate (save_history now h e)).autoHours
      = (aggregate h).autoHours +
        (if e.type.getD "" == "Automation" then e.hours.getD 0 else 0) ∧
    (aggregate (save_history now h e)).autoSavings
      = (aggregate h).autoSavings +
        (if e.type.getD "" == "Automation" then e.savings.getD 0
         else 0) := by
  refine ⟨rfl, rfl, rfl, rfl, rfl, rfl,
    fun hh => by simp [fill_entry, hh],
    fun hs => by simp [fill_entry, hs], ?_, ?_⟩ <;>
  · by_cases hq : (e.type.getD "" == "Automation") = true <;>
      simp [aggregate, save_history, fill_entry, List.filter_append, hq]

/-- Witness for C6 on the all-defaults entry and the empty history:
`hours` and `savings` are absent and the filled record carries `0` for
both. -/
theorem claim_C6_defaults_witness :
    ({} : Entry).hours = none ∧ (fill_entry 7 {}).hours = 0 ∧
    ({} : Entry).savings = none ∧ (fill_entry 7 {}).savings = 0 := by
  have h := claim_C6_defaults {} 7 []
  exact ⟨rfl, h.2.2.2.2.2.2.1 rfl, rfl, h.2.2.2.2.2.2.2.1 rfl⟩

end ProductivityToolkit
